import Mathlib

/-!
Shallow embedding of the realtime chat backend (NestJS websockets gateway,
conversations service, messages service) together with proofs about the
frozen claims on its specification.

The durable Prisma store is modelled as explicit record lists; Prisma
queries become list scans in insertion order (Prisma `findFirst` returns
the first matching row).  JavaScript `Map`/`Set` objects of the gateway
become association lists with insertion-order semantics.  Optional string
payload fields are `Option String`, with JavaScript truthiness made
explicit (`undefined`, `null` and the empty string are falsy).  Database
writes that can fail at runtime are modelled by boolean outcome inputs on
the operations whose failure the claims are about.
-/

/-- JavaScript `String.prototype.trim`: strip whitespace from both ends
(structurally, over the character list). -/
def jsTrim (s : String) : String :=
  String.mk
    (((s.data.dropWhile Char.isWhitespace).reverse.dropWhile
      Char.isWhitespace).reverse)

/-- JavaScript truthiness of an optional string field: absent (`undefined`/
`null`) and the empty string are falsy, every other string is truthy. -/
def jsTruthy : Option String → Bool
  | none => false
  | some s => !(s == "")

/-- JavaScript `a || b` on optional string values. -/
def jsOr (a b : Option String) : Option String :=
  if jsTruthy a then a else b

/-- JavaScript `a || b` on plain strings (empty string is falsy). -/
def jsOrS (a b : String) : String :=
  if a == "" then b else a

/-- Lookup in a JavaScript `Map` modelled as an association list. -/
def mapGet {α : Type} (m : List (String × α)) (k : String) : Option α :=
  (m.find? (fun kv => kv.1 == k)).map (fun kv => kv.2)

/-- `Map.set`: replace the binding if the key exists, else append it. -/
def mapSet {α : Type} (m : List (String × α)) (k : String) (v : α) :
    List (String × α) :=
  if m.any (fun kv => kv.1 == k) then
    m.map (fun kv => if kv.1 == k then (k, v) else kv)
  else
    m ++ [(k, v)]

/-- `Map.delete`. -/
def mapDelete {α : Type} (m : List (String × α)) (k : String) :
    List (String × α) :=
  m.filter (fun kv => kv.1 != k)

/-- `Set.add`: a no-op when the element is already present. -/
def setAdd (s : List String) (x : String) : List String :=
  if s.contains x then s else s ++ [x]

/-- `Set.delete`. -/
def setDelete (s : List String) (x : String) : List String :=
  s.filter (fun y => y != x)

/-- Row of the `User` table (`isOnline` and `lastSeen` per the migration). -/
structure UserRec where
  id : String
  username : String
  isOnline : Bool
  lastSeen : Option Nat
deriving Repr, DecidableEq

/-- Row of the `Conversation` table with its denormalized last-message
pointer (`lastMessageId`, `lastMessageAt`). -/
structure ConversationRec where
  id : String
  createdAt : Nat
  updatedAt : Nat
  lastMessageId : Option String
  lastMessageAt : Option Nat
deriving Repr, DecidableEq

/-- Row of the `ConversationParticipant` join table. -/
structure ParticipantRec where
  id : String
  userId : String
  conversationId : String
  createdAt : Nat
deriving Repr, DecidableEq

/-- Row of the `Message` table. -/
structure MessageRec where
  id : String
  content : String
  authorId : String
  conversationId : String
  createdAt : Nat
  updatedAt : Nat
deriving Repr, DecidableEq

/-- Row of the `MessageReadReceipt` table; `(messageId, userId)` is unique
per the migration's index. -/
structure ReadReceiptRec where
  id : String
  messageId : String
  userId : String
  readAt : Nat
deriving Repr, DecidableEq

/-- The Prisma database, plus an id generator and a clock used for
`cuid()` defaults and `new Date()` respectively. -/
structure Store where
  users : List UserRec
  conversations : List ConversationRec
  participants : List ParticipantRec
  messages : List MessageRec
  readReceipts : List ReadReceiptRec
  nextId : Nat
  now : Nat
deriving Repr, DecidableEq

/-- Next generated row id. -/
def freshId (db : Store) : String :=
  "id" ++ toString db.nextId

/-- Participant rows of one conversation. -/
def participantsOf (db : Store) (cid : String) : List ParticipantRec :=
  db.participants.filter (fun p => p.conversationId == cid)

/-- Prisma `participants: { some: { userId } }` on a conversation row. -/
def hasParticipant (db : Store) (cid uid : String) : Bool :=
  (participantsOf db cid).any (fun p => p.userId == uid)

/-- Exceptions thrown across the services and the gateway:
`WsException({type, message})` payloads and the NestJS HTTP exceptions the
services throw, plus a store-level failure for a rejected database write. -/
inductive GErr where
  | ws (ty msg : String)
  | notFound (msg : String)
  | forbidden (msg : String)
  | badRequest (msg : String)
  | conflict (msg : String)
  | storeError (msg : String)
deriving Repr, DecidableEq

/-- The gateway's `err?.type` read through its `ExtendedError` cast: only
`WsException` payloads carry a `type` field. -/
def GErr.typeField : GErr → Option String
  | .ws t _ => some t
  | _ => none

/-- The gateway's `err?.message`. -/
def GErr.msgText : GErr → String
  | .ws _ m => m
  | .notFound m => m
  | .forbidden m => m
  | .badRequest m => m
  | .conflict m => m
  | .storeError m => m

/-- `{ id, username }` selection of a user row. -/
structure UserLite where
  id : String
  username : String
deriving Repr, DecidableEq

/-- `{ id, username, isOnline, lastSeen }` selection of a user row. -/
structure UserSel where
  id : String
  username : String
  isOnline : Bool
  lastSeen : Option Nat
deriving Repr, DecidableEq

/-- Participant entry of a conversation response. -/
structure ParticipantResp where
  id : String
  user : Option UserSel
  createdAt : Nat
deriving Repr, DecidableEq

/-- Message record as returned by the messages service: the row plus the
included author selection and read receipts. -/
structure MessageResp where
  id : String
  content : String
  authorId : String
  conversationId : String
  createdAt : Nat
  user : Option UserLite
  readReceipts : List ReadReceiptRec
deriving Repr, DecidableEq

/-- Conversation record as returned by the conversations service. -/
structure ConversationResp where
  id : String
  createdAt : Nat
  updatedAt : Nat
  participants : List ParticipantResp
  lastMessage : Option MessageResp
deriving Repr, DecidableEq

/-- Message row enriched with its `include` clauses (author, receipts). -/
def toMessageResp (db : Store) (m : MessageRec) : MessageResp :=
  { id := m.id
    content := m.content
    authorId := m.authorId
    conversationId := m.conversationId
    createdAt := m.createdAt
    user := (db.users.find? (fun u => u.id == m.authorId)).map
      (fun u => { id := u.id, username := u.username })
    readReceipts := db.readReceipts.filter (fun r => r.messageId == m.id) }

/-- Conversation row enriched with its `include` clauses. -/
def toConversationResp (db : Store) (c : ConversationRec) : ConversationResp :=
  { id := c.id
    createdAt := c.createdAt
    updatedAt := c.updatedAt
    participants := (participantsOf db c.id).map (fun p =>
      { id := p.id
        user := (db.users.find? (fun u => u.id == p.userId)).map
          (fun u =>
            { id := u.id, username := u.username, isOnline := u.isOnline,
              lastSeen := u.lastSeen })
        createdAt := p.createdAt })
    lastMessage := c.lastMessageId.bind (fun mid =>
      (db.messages.find? (fun m => m.id == mid)).map (toMessageResp db)) }

/-- Prisma `conversation.findFirst({ where: { id, participants: { some:
{ userId } } } })`, shared by `findOne`, `update` and `remove`. -/
def convWhereIdAndMember (db : Store) (cid uid : String) :
    Option ConversationRec :=
  db.conversations.find? (fun c => c.id == cid && hasParticipant db c.id uid)

namespace ConversationsService

/-- `ConversationsService.findOne`: the conversation by id, visible only to
its participants; `NotFoundException` otherwise. -/
def findOne (cid uid : String) (db : Store) : Except GErr ConversationResp :=
  match convWhereIdAndMember db cid uid with
  | none => .error (.notFound ("Conversation with ID " ++ cid ++ " not found"))
  | some c => .ok (toConversationResp db c)

/-- `UpdateConversationDto` (an optional `name`, ignored by the service). -/
structure UpdateConversationDto where
  name : Option String
deriving Repr, DecidableEq

/-- `ConversationsService.update`: checks the caller is a participant, then
returns the existing conversation without performing any write. -/
def update (cid : String) (dto : UpdateConversationDto) (uid : String)
    (db : Store) : (Except GErr ConversationResp) × Store :=
  match convWhereIdAndMember db cid uid with
  | none =>
      (.error (.notFound ("Conversation with ID " ++ cid ++ " not found")), db)
  | some _ => (findOne cid uid db, db)

/-- `ConversationsService.findConversationBetweenUsers`: first conversation
all of whose participants are among `userIds` and that has at least one
participant among `userIds`. -/
def findConversationBetweenUsers (userIds : List String) (db : Store) :
    Option String :=
  (db.conversations.find? (fun c =>
    (participantsOf db c.id).all (fun p => userIds.contains p.userId) &&
    (participantsOf db c.id).any (fun p => userIds.contains p.userId))).map
      (fun c => c.id)

/-- `ConversationsService.findOrCreateConversationBetweenUsers`: existence
check first, creation (conversation plus two participant rows) only when
no conversation matches. -/
def findOrCreateConversationBetweenUsers (userId1 userId2 : String)
    (db : Store) : String × Store :=
  match findConversationBetweenUsers [userId1, userId2] db with
  | some cid => (cid, db)
  | none =>
      let cid := freshId db
      let conv : ConversationRec :=
        { id := cid, createdAt := db.now, updatedAt := db.now,
          lastMessageId := none, lastMessageAt := none }
      let p1 : ParticipantRec :=
        { id := cid ++ "p1", userId := userId1, conversationId := cid,
          createdAt := db.now }
      let p2 : ParticipantRec :=
        { id := cid ++ "p2", userId := userId2, conversationId := cid,
          createdAt := db.now }
      (cid,
        { db with
            conversations := db.conversations ++ [conv]
            participants := db.participants ++ [p1, p2]
            nextId := db.nextId + 1 })

end ConversationsService

/-- `CreateMessageDto` as the gateway hands it to the messages service. -/
structure CreateMessageDto where
  content : String
  conversationId : Option String
  recipientId : Option String
deriving Repr, DecidableEq

/-- `(messageId, userId)` already has a receipt row. -/
def hasReceipt (db : Store) (mid uid : String) : Bool :=
  db.readReceipts.any (fun r => r.messageId == mid && r.userId == uid)

/-- Append one read-receipt row with a generated id. -/
def addReceiptRow (db : Store) (mid uid : String) : Store :=
  { db with
      readReceipts := db.readReceipts ++
        [{ id := freshId db, messageId := mid, userId := uid,
           readAt := db.now }]
      nextId := db.nextId + 1 }

/-- `messageReadReceipt.createMany({ data, skipDuplicates: true })`: insert
each `(messageId, userId)` row, skipping pairs that already exist. -/
def createManyReceipts (rows : List (String × String)) (db : Store) : Store :=
  rows.foldl
    (fun acc row =>
      if hasReceipt acc row.1 row.2 then acc else addReceiptRow acc row.1 row.2)
    db

/-- A message of `cid` is unread for `uid`: authored by someone else and
without a receipt by `uid` (the `where` clause of `markAsRead`). -/
def isUnread (db : Store) (cid uid : String) (m : MessageRec) : Bool :=
  m.conversationId == cid && m.authorId != uid && !(hasReceipt db m.id uid)

/-- The unread messages `markAsRead` selects, in insertion order. -/
def unreadMessages (db : Store) (cid uid : String) : List MessageRec :=
  db.messages.filter (isUnread db cid uid)

/-- Return shape of `MessagesService.markAsRead`. -/
structure MarkAsReadResult where
  message : String
  messageIds : List String
deriving Repr, DecidableEq

namespace MessagesService

/-- `MessagesService.markAsRead`: select the caller's unread messages of
the conversation, bulk-create duplicate-safe receipts for them (only when
there is at least one), and return their ids. -/
def markAsRead (cid uid : String) (db : Store) : MarkAsReadResult × Store :=
  let unread := unreadMessages db cid uid
  let messageIds := unread.map (fun m => m.id)
  let db1 :=
    if unread.length > 0 then
      createManyReceipts (unread.map (fun m => (m.id, uid))) db
    else db
  ({ message := "Messages marked as read", messageIds := messageIds }, db1)

/-- `MessagesService.create`: resolve the conversation (provided
`conversationId` checked via `findOne`, else find-or-create via
`recipientId`, else `BadRequestException`), insert the message row, then
update the conversation's last-message pointer.  `insertOk`/`updateOk` are
the commit outcomes of the two database writes; a rejected write raises a
store error leaving the effects performed so far in place. -/
def create (dto : CreateMessageDto) (authorId : String)
    (insertOk updateOk : Bool) (db : Store) :
    (Except GErr MessageResp) × Store :=
  let step : Except GErr (String × Store) :=
    if jsTruthy dto.conversationId then
      match ConversationsService.findOne (dto.conversationId.getD "") authorId
          db with
      | .error e => .error e
      | .ok _ => .ok (dto.conversationId.getD "", db)
    else if jsTruthy dto.recipientId then
      .ok (ConversationsService.findOrCreateConversationBetweenUsers authorId
        (dto.recipientId.getD "") db)
    else
      .error (.badRequest "Either conversationId or recipientId must be provided")
  match step with
  | .error e => (.error e, db)
  | .ok (cid, db1) =>
      if insertOk then
        let m : MessageRec :=
          { id := freshId db1, content := dto.content, authorId := authorId,
            conversationId := cid, createdAt := db1.now, updatedAt := db1.now }
        let db2 :=
          { db1 with messages := db1.messages ++ [m], nextId := db1.nextId + 1 }
        if updateOk then
          let db3 :=
            { db2 with
                conversations := db2.conversations.map (fun c =>
                  if c.id == cid then
                    { c with lastMessageId := some m.id,
                             lastMessageAt := some m.createdAt }
                  else c) }
          (.ok (toMessageResp db3 m), db3)
        else (.error (.storeError "conversation update failed"), db2)
      else (.error (.storeError "message create failed"), db1)

end MessagesService

/-- In-memory state of `EventsGateway`: `userRooms`, `socketToUser` and
`typingUsers` are the gateway's own maps; `rooms` is the socket.io
server's room membership (room id to subscribed socket ids), mutated by
`client.join`/`client.leave` and by transport-level disconnection. -/
structure GatewayState where
  userRooms : List (String × List String)
  socketToUser : List (String × String)
  typingUsers : List (String × List String)
  rooms : List (String × List String)
deriving Repr, DecidableEq

/-- Gateway state at process start: every map empty. -/
def emptyGateway : GatewayState :=
  { userRooms := [], socketToUser := [], typingUsers := [], rooms := [] }

/-- Sockets currently subscribed to a room. -/
def roomMembers (g : GatewayState) (room : String) : List String :=
  (mapGet g.rooms room).getD []

/-- `client.join(room)`. -/
def joinRoom (g : GatewayState) (sock room : String) : GatewayState :=
  { g with rooms := mapSet g.rooms room (setAdd (roomMembers g room) sock) }

/-- Typing set of a conversation. -/
def typingSetOf (g : GatewayState) (cid : String) : List String :=
  (mapGet g.typingUsers cid).getD []

/-- Outbound server-to-client events of the gateway. -/
inductive ServerEvent where
  | connected (message userId socketId : String)
  | conversationJoined (conversationId message : String)
  | conversationLeft (conversationId message : String)
  | conversationStarted (conversationId recipientId message : String)
  | newMessage (m : MessageResp)
  | messageSent (message messageId : String)
  | messagesRead (conversationId userId : String) (messageIds : List String)
      (readAt : Nat)
  | userOnlineStatusChanged (userId : String) (isOnline : Bool)
      (lastSeen : Option Nat)
  | userTyping (userId conversationId : String)
  | userStoppedTyping (userId conversationId : String)
  | errorEvent (ty message : String) (conversationId : Option String)
deriving Repr, DecidableEq

/-- One delivery: an event together with the socket ids that receive it. -/
structure Emit where
  targets : List String
  event : ServerEvent
deriving Repr, DecidableEq

/-- `client.emit(event)`. -/
def emitTo (sock : String) (ev : ServerEvent) : Emit :=
  { targets := [sock], event := ev }

/-- `server.to(room).emit(event)`: every socket in the room. -/
def serverToRoom (g : GatewayState) (room : String) (ev : ServerEvent) : Emit :=
  { targets := roomMembers g room, event := ev }

/-- `client.to(room).emit(event)`: every socket in the room except the
emitting client. -/
def clientToRoom (g : GatewayState) (sock room : String) (ev : ServerEvent) :
    Emit :=
  { targets := (roomMembers g room).filter (fun s => s != sock), event := ev }

/-- Result of one gateway handler invocation: the new in-memory state, the
new store, the deliveries performed, and the exception it rethrew (if
any). -/
structure HandlerResult where
  gw : GatewayState
  db : Store
  emits : List Emit
  err : Option GErr
deriving Repr, DecidableEq

/-- Catch block of the subscribe-message handlers: emit an `error` event to
the caller (`err?.type || fallbackTy`, `err?.message || fallbackMsg`, the
payload-derived conversation id) and rethrow. -/
def handlerThrow (g : GatewayState) (db : Store) (clientId fallbackTy
    fallbackMsg : String) (convId : Option String) (e : GErr) : HandlerResult :=
  { gw := g
    db := db
    emits := [emitTo clientId (.errorEvent ((GErr.typeField e).getD fallbackTy)
      (jsOrS (GErr.msgText e) fallbackMsg) convId)]
    err := some e }

namespace EventsGateway

/-- `EventsGateway.updateUserOnlineStatus`: persist the flag (with
`lastSeen` set only when going offline), then broadcast
`userOnlineStatusChanged` to the room of every conversation the user
participates in.  A failing user update is caught and logged, so a missing
user row yields no write and no broadcast. -/
def updateUserOnlineStatus (g : GatewayState) (db : Store)
    (userId : String) (isOnline : Bool) : Store × List Emit :=
  match db.users.find? (fun u => u.id == userId) with
  | none => (db, [])
  | some _ =>
      let db1 :=
        { db with users := db.users.map (fun u =>
            if u.id == userId then
              { u with isOnline := isOnline,
                       lastSeen := if isOnline then u.lastSeen else some db.now }
            else u) }
      let convs := db1.conversations.filter (fun c => hasParticipant db1 c.id userId)
      (db1, convs.map (fun c => serverToRoom g c.id
        (.userOnlineStatusChanged userId isOnline
          (if isOnline then none else some db1.now))))

/-- `EventsGateway.handleConnection` for a socket whose middleware resolved
`user` (its `sub` is the user id; `none` models an unauthenticated
socket): record the socket, join the room of every conversation the user
participates in, record those rooms, mark the user online (with its
broadcasts), and acknowledge with `connected`. -/
def handleConnection (g : GatewayState) (db : Store) (clientId : String)
    (userSub : Option String) : HandlerResult :=
  match userSub with
  | none =>
      { gw := g, db := db,
        emits := [emitTo clientId
          (.errorEvent "AUTHENTICATION_ERROR" "Authentication required" none)]
        err := none }
  | some userId =>
      let g1 := { g with socketToUser := mapSet g.socketToUser clientId userId }
      let convs := db.conversations.filter (fun c => hasParticipant db c.id userId)
      let g2 := convs.foldl (fun acc c => joinRoom acc clientId c.id) g1
      let cids := convs.map (fun c => c.id)
      let g3 := { g2 with userRooms := mapSet g2.userRooms userId cids }
      let r := updateUserOnlineStatus g3 db userId true
      { gw := g3, db := r.1,
        emits := r.2 ++
          [emitTo clientId (.connected "Successfully connected" userId clientId)]
        err := none }

/-- `EventsGateway.handleDisconnect`: the transport has already removed the
socket from every room; the handler then deletes the socket's user
mapping and the user's room tracking and unconditionally marks the user
offline.  A socket with no recorded user is a no-op. -/
def handleDisconnect (g : GatewayState) (db : Store) (clientId : String) :
    HandlerResult :=
  let g0 := { g with rooms := g.rooms.map (fun rv =>
    (rv.1, rv.2.filter (fun s => s != clientId))) }
  match mapGet g0.socketToUser clientId with
  | none => { gw := g0, db := db, emits := [], err := none }
  | some userId =>
      let g1 := { g0 with
        socketToUser := mapDelete g0.socketToUser clientId
        userRooms := mapDelete g0.userRooms userId }
      let r := updateUserOnlineStatus g1 db userId false
      { gw := g1, db := r.1, emits := r.2, err := none }

/-- `EventsGateway.handleJoinConversation`: validate the payload, resolve
the acting user, check access through `ConversationsService.findOne`, join
the socket.io room, track it in `userRooms`, and acknowledge with
`conversationJoined`; any exception is emitted as an `error` event to the
caller and rethrown. -/
def handleJoinConversation (g : GatewayState) (db : Store)
    (clientId : String) (conversationId : Option String) : HandlerResult :=
  if !(jsTruthy conversationId) then
    handlerThrow g db clientId "JOIN_CONVERSATION_ERROR"
      "Failed to join conversation" conversationId
      (.ws "VALIDATION_ERROR" "conversationId is required")
  else
    let cid := conversationId.getD ""
    match mapGet g.socketToUser clientId with
    | none =>
        handlerThrow g db clientId "JOIN_CONVERSATION_ERROR"
          "Failed to join conversation" conversationId
          (.ws "AUTHENTICATION_ERROR" "User not authenticated")
    | some userId =>
        match ConversationsService.findOne cid userId db with
        | .error e =>
            handlerThrow g db clientId "JOIN_CONVERSATION_ERROR"
              "Failed to join conversation" conversationId e
        | .ok _ =>
            let g1 := joinRoom g clientId cid
            let tracked := setAdd ((mapGet g1.userRooms userId).getD []) cid
            let g2 := { g1 with userRooms := mapSet g1.userRooms userId tracked }
            { gw := g2, db := db,
              emits := [emitTo clientId
                (.conversationJoined cid "Successfully joined conversation")]
              err := none }

/-- `EventsGateway.handleSendMessage`: validate content, require at least
one of `conversationId`/`recipientId`, reject whitespace-only content,
resolve the acting user, create the message through the messages service,
then broadcast `newMessage` to the conversation room (sender included) and
acknowledge the sender with `messageSent`.  `insertOk`/`updateOk` are the
commit outcomes of the service's two writes. -/
def handleSendMessage (g : GatewayState) (db : Store) (clientId : String)
    (content conversationId recipientId : Option String)
    (insertOk updateOk : Bool) : HandlerResult :=
  let errConv := jsOr conversationId recipientId
  if !(jsTruthy content) then
    handlerThrow g db clientId "SEND_MESSAGE_ERROR" "Failed to send message"
      errConv (.ws "VALIDATION_ERROR" "content is required")
  else if !(jsTruthy conversationId) && !(jsTruthy recipientId) then
    handlerThrow g db clientId "SEND_MESSAGE_ERROR" "Failed to send message"
      errConv (.ws "VALIDATION_ERROR" "Either conversationId or recipientId is required")
  else if (jsTrim (content.getD "")).length == 0 then
    handlerThrow g db clientId "SEND_MESSAGE_ERROR" "Failed to send message"
      errConv (.ws "VALIDATION_ERROR" "Message content cannot be empty")
  else
    match mapGet g.socketToUser clientId with
    | none =>
        handlerThrow g db clientId "SEND_MESSAGE_ERROR" "Failed to send message"
          errConv (.ws "AUTHENTICATION_ERROR" "User not authenticated")
    | some userId =>
        let r := MessagesService.create
          { content := jsTrim (content.getD ""),
            conversationId := conversationId, recipientId := recipientId }
          userId insertOk updateOk db
        match r.1 with
        | .error e =>
            handlerThrow g r.2 clientId "SEND_MESSAGE_ERROR"
              "Failed to send message" errConv e
        | .ok m =>
            { gw := g, db := r.2,
              emits := [serverToRoom g m.conversationId (.newMessage m),
                emitTo clientId (.messageSent "Message sent successfully" m.id)]
              err := none }

/-- `EventsGateway.handleMarkAsRead`: validate the payload, resolve the
acting user, mark the conversation's unread messages read through the
messages service, and broadcast `messagesRead` (always, whatever the
count) to the room excluding the caller. -/
def handleMarkAsRead (g : GatewayState) (db : Store) (clientId : String)
    (conversationId : Option String) : HandlerResult :=
  if !(jsTruthy conversationId) then
    handlerThrow g db clientId "MARK_AS_READ_ERROR"
      "Failed to mark messages as read" conversationId
      (.ws "VALIDATION_ERROR" "conversationId is required")
  else
    let cid := conversationId.getD ""
    match mapGet g.socketToUser clientId with
    | none =>
        handlerThrow g db clientId "MARK_AS_READ_ERROR"
          "Failed to mark messages as read" conversationId
          (.ws "AUTHENTICATION_ERROR" "User not authenticated")
    | some userId =>
        let r := MessagesService.markAsRead cid userId db
        { gw := g, db := r.2,
          emits := [clientToRoom g clientId cid
            (.messagesRead cid userId r.1.messageIds r.2.now)]
          err := none }

/-- `EventsGateway.handleStartTyping`: silently ignore bad payloads and
unauthenticated sockets, add the user to the conversation's typing set,
and notify the room excluding the caller. -/
def handleStartTyping (g : GatewayState) (db : Store) (clientId : String)
    (conversationId : Option String) : HandlerResult :=
  if !(jsTruthy conversationId) then
    { gw := g, db := db, emits := [], err := none }
  else
    let cid := conversationId.getD ""
    match mapGet g.socketToUser clientId with
    | none => { gw := g, db := db, emits := [], err := none }
    | some userId =>
        let typing := setAdd ((mapGet g.typingUsers cid).getD []) userId
        let g1 := { g with typingUsers := mapSet g.typingUsers cid typing }
        { gw := g1, db := db,
          emits := [clientToRoom g1 clientId cid (.userTyping userId cid)]
          err := none }

/-- `EventsGateway.handleStopTyping`: silently ignore bad payloads and
unauthenticated sockets, remove the user from the conversation's typing
set, and notify the room excluding the caller. -/
def handleStopTyping (g : GatewayState) (db : Store) (clientId : String)
    (conversationId : Option String) : HandlerResult :=
  if !(jsTruthy conversationId) then
    { gw := g, db := db, emits := [], err := none }
  else
    let cid := conversationId.getD ""
    match mapGet g.socketToUser clientId with
    | none => { gw := g, db := db, emits := [], err := none }
    | some userId =>
        let typing :=
          match mapGet g.typingUsers cid with
          | none => g.typingUsers
          | some s => mapSet g.typingUsers cid (setDelete s userId)
        let g1 := { g with typingUsers := typing }
        { gw := g1, db := db,
          emits := [clientToRoom g1 clientId cid (.userStoppedTyping userId cid)]
          err := none }

end EventsGateway

/-! Helper lemmas about the list and map primitives. -/

theorem list_all_ext {α : Type} (p q : α → Bool) (l : List α)
    (h : ∀ a, p a = q a) : l.all p = l.all q := by
  induction l with
  | nil => rfl
  | cons a t ih => simp [List.all_cons, h a, ih]

theorem list_any_ext {α : Type} (p q : α → Bool) (l : List α)
    (h : ∀ a, p a = q a) : l.any p = l.any q := by
  induction l with
  | nil => rfl
  | cons a t ih => simp [List.any_cons, h a, ih]

theorem list_find_ext {α : Type} (p q : α → Bool) (l : List α)
    (h : ∀ a, p a = q a) : l.find? p = l.find? q := by
  induction l with
  | nil => rfl
  | cons a t ih => cases hq : q a <;> simp [List.find?_cons, h a, hq, ih]

theorem list_find_append_left_none {α : Type} (p : α → Bool) (l1 l2 : List α)
    (h : l1.find? p = none) : (l1 ++ l2).find? p = l2.find? p := by
  rw [List.find?_append, h, Option.none_or]

theorem contains_pair_comm (x a b : String) :
    ([a, b].contains x) = ([b, a].contains x) := by
  simp [List.contains, Bool.or_comm]

/-! Lemmas about read-receipt creation and `markAsRead`. -/

theorem createManyReceipts_cons (r : String × String)
    (t : List (String × String)) (db : Store) :
    createManyReceipts (r :: t) db =
      createManyReceipts t
        (if hasReceipt db r.1 r.2 then db else addReceiptRow db r.1 r.2) := rfl

theorem createManyReceipts_messages (rows : List (String × String)) :
    ∀ db : Store, (createManyReceipts rows db).messages = db.messages := by
  induction rows with
  | nil => intro db; rfl
  | cons r t ih =>
      intro db
      rw [createManyReceipts_cons, ih]
      split <;> rfl

theorem createManyReceipts_now (rows : List (String × String)) :
    ∀ db : Store, (createManyReceipts rows db).now = db.now := by
  induction rows with
  | nil => intro db; rfl
  | cons r t ih =>
      intro db
      rw [createManyReceipts_cons, ih]
      split <;> rfl

theorem hasReceipt_addReceiptRow (db : Store) (a b m u : String) :
    hasReceipt (addReceiptRow db a b) m u =
      (hasReceipt db m u || (a == m && b == u)) := by
  simp [hasReceipt, addReceiptRow, List.any_append]

theorem hasReceipt_createMany_mono (rows : List (String × String)) :
    ∀ (db : Store) (m u : String), hasReceipt db m u = true →
      hasReceipt (createManyReceipts rows db) m u = true := by
  induction rows with
  | nil => intro db m u h; exact h
  | cons r t ih =>
      intro db m u h
      rw [createManyReceipts_cons]
      apply ih
      split
      · exact h
      · rw [hasReceipt_addReceiptRow, h, Bool.true_or]

theorem hasReceipt_createMany_of_mem (rows : List (String × String)) :
    ∀ (db : Store) (m u : String), (m, u) ∈ rows →
      hasReceipt (createManyReceipts rows db) m u = true := by
  induction rows with
  | nil => intro db m u h; cases h
  | cons r t ih =>
      intro db m u h
      rw [createManyReceipts_cons]
      rcases List.mem_cons.mp h with he | ht
      · subst he
        apply hasReceipt_createMany_mono
        by_cases hr : hasReceipt db m u = true
        · rw [if_pos hr]; exact hr
        · rw [if_neg hr, hasReceipt_addReceiptRow]
          simp
      · exact ih _ m u ht

theorem createManyReceipts_length (rows : List (String × String)) :
    ∀ db : Store, (rows.map Prod.fst).Nodup →
      (∀ r ∈ rows, hasReceipt db r.1 r.2 = false) →
      (createManyReceipts rows db).readReceipts.length =
        db.readReceipts.length + rows.length := by
  induction rows with
  | nil => intro db _ _; rfl
  | cons r t ih =>
      intro db hnd hall
      rw [createManyReceipts_cons]
      have hr : hasReceipt db r.1 r.2 = false := hall r (List.mem_cons_self r t)
      rw [if_neg (by simp [hr])]
      have hnd' : (t.map Prod.fst).Nodup := (List.nodup_cons.mp hnd).2
      have hnm : r.1 ∉ t.map Prod.fst := (List.nodup_cons.mp hnd).1
      have hall' : ∀ s ∈ t, hasReceipt (addReceiptRow db r.1 r.2) s.1 s.2 = false := by
        intro s hs
        rw [hasReceipt_addReceiptRow]
        have h1 : hasReceipt db s.1 s.2 = false := hall s (List.mem_cons_of_mem r hs)
        have hne : ¬ (r.1 = s.1) := by
          intro hEq
          exact hnm (hEq ▸ List.mem_map_of_mem Prod.fst hs)
        simp [h1, hne]
      rw [ih _ hnd' hall']
      simp only [addReceiptRow, List.length_append, List.length_cons,
        List.length_nil]
      omega

theorem markAsRead_messages (cid uid : String) (db : Store) :
    (MessagesService.markAsRead cid uid db).2.messages = db.messages := by
  simp only [MessagesService.markAsRead]
  split
  · exact createManyReceipts_messages _ _
  · rfl

theorem markAsRead_now (cid uid : String) (db : Store) :
    (MessagesService.markAsRead cid uid db).2.now = db.now := by
  simp only [MessagesService.markAsRead]
  split
  · exact createManyReceipts_now _ _
  · rfl

theorem markAsRead_hasReceipt_mono (cid uid m u : String) (db : Store)
    (h : hasReceipt db m u = true) :
    hasReceipt (MessagesService.markAsRead cid uid db).2 m u = true := by
  simp only [MessagesService.markAsRead]
  split
  · exact hasReceipt_createMany_mono _ _ _ _ h
  · exact h

theorem markAsRead_of_no_unread (cid uid : String) (db : Store)
    (h : unreadMessages db cid uid = []) :
    MessagesService.markAsRead cid uid db =
      ({ message := "Messages marked as read", messageIds := [] }, db) := by
  simp [MessagesService.markAsRead, h]

theorem markAsRead_clears (cid uid : String) (db : Store) :
    unreadMessages (MessagesService.markAsRead cid uid db).2 cid uid = [] := by
  rw [unreadMessages, markAsRead_messages]
  apply List.filter_eq_nil_iff.mpr
  intro m hm
  by_cases hu : isUnread db cid uid m = true
  · have hmem : m ∈ unreadMessages db cid uid := List.mem_filter.mpr ⟨hm, hu⟩
    have hpos : 0 < (unreadMessages db cid uid).length :=
      List.length_pos.mpr (by intro hnil; rw [hnil] at hmem; cases hmem)
    have hdb1 : (MessagesService.markAsRead cid uid db).2 =
        createManyReceipts
          ((unreadMessages db cid uid).map (fun m => (m.id, uid))) db := by
      simp only [MessagesService.markAsRead]
      rw [if_pos hpos]
    have hrec : hasReceipt (MessagesService.markAsRead cid uid db).2 m.id uid = true := by
      rw [hdb1]
      exact hasReceipt_createMany_of_mem _ _ _ _
        (List.mem_map_of_mem (fun m => (m.id, uid)) hmem)
    simp [isUnread, hrec]
  · intro hcontra
    apply hu
    unfold isUnread at hcontra ⊢
    simp only [Bool.and_eq_true] at hcontra
    obtain ⟨⟨ha, hb⟩, hc⟩ := hcontra
    have hnot : hasReceipt (MessagesService.markAsRead cid uid db).2 m.id uid = false := by
      cases hcc : hasReceipt (MessagesService.markAsRead cid uid db).2 m.id uid
      · rfl
      · rw [hcc] at hc; cases hc
    have hdbf : hasReceipt db m.id uid = false := by
      cases hdd : hasReceipt db m.id uid
      · rfl
      · have hmono := markAsRead_hasReceipt_mono cid uid m.id uid db hdd
        rw [hmono] at hnot; cases hnot
    rw [ha, hb, hdbf]
    rfl

/-! Concrete fixtures used by witnesses, counterexamples and code-bug
demonstrations. -/

/-- Small database: users `u1`, `u2`, `u3`; one conversation `c1` whose
participants are `u1` and `u2`; no messages yet. -/
def db0 : Store :=
  { users :=
      [{ id := "u1", username := "alice", isOnline := false, lastSeen := none },
       { id := "u2", username := "bob", isOnline := false, lastSeen := none },
       { id := "u3", username := "carol", isOnline := false, lastSeen := none }]
    conversations :=
      [{ id := "c1", createdAt := 0, updatedAt := 0, lastMessageId := none,
         lastMessageAt := none }]
    participants :=
      [{ id := "p1", userId := "u1", conversationId := "c1", createdAt := 0 },
       { id := "p2", userId := "u2", conversationId := "c1", createdAt := 0 }]
    messages := []
    readReceipts := []
    nextId := 0
    now := 5 }

/-- Count of offline `userOnlineStatusChanged` broadcasts for one user. -/
def countOfflineBroadcasts (ems : List Emit) (uid : String) : Nat :=
  ems.countP (fun em =>
    match em.event with
    | .userOnlineStatusChanged u b _ => u == uid && !b
    | _ => false)

/-- `isOnline` column of a user row. -/
def userIsOnlineIn (db : Store) (uid : String) : Option Bool :=
  (db.users.find? (fun u => u.id == uid)).map (fun u => u.isOnline)

/-- C1 fixture: `u1` connects twice (sockets `s1`, `s2`), then `s1`
disconnects, then `s2` disconnects. -/
def c1conn1 : HandlerResult :=
  EventsGateway.handleConnection emptyGateway db0 "s1" (some "u1")

def c1conn2 : HandlerResult :=
  EventsGateway.handleConnection c1conn1.gw c1conn1.db "s2" (some "u1")

def c1disc1 : HandlerResult :=
  EventsGateway.handleDisconnect c1conn2.gw c1conn2.db "s1"

def c1disc2 : HandlerResult :=
  EventsGateway.handleDisconnect c1disc1.gw c1disc1.db "s2"

/-- C1: with two live connections for `u1`, disconnecting only `s1` leaves
`s2` registered for `u1`, yet the handler persists `isOnline = false` and
broadcasts an offline presence change; the later final disconnect
broadcasts offline a second time, so the flip is not guarded by a
remaining-session check and does not happen exactly once. -/
theorem presence_offline_on_nonfinal_disconnect :
    mapGet c1disc1.gw.socketToUser "s2" = some "u1" ∧
    userIsOnlineIn c1disc1.db "u1" = some false ∧
    countOfflineBroadcasts c1disc1.emits "u1" = 1 ∧
    countOfflineBroadcasts c1disc2.emits "u1" = 1 := by decide

/-- C2 fixture: `u1` connects on `s1`, starts typing in `c1`, then
disconnects without stopping. -/
def c2conn : HandlerResult :=
  EventsGateway.handleConnection emptyGateway db0 "s1" (some "u1")

def c2typing : HandlerResult :=
  EventsGateway.handleStartTyping c2conn.gw c2conn.db "s1" (some "c1")

def c2disc : HandlerResult :=
  EventsGateway.handleDisconnect c2typing.gw c2typing.db "s1"

/-- C2: after the disconnect handler completes, the typing set of `c1`
still contains `u1` even though the session is gone: `handleDisconnect`
never touches `typingUsers`, so the stale typing entry persists. -/
theorem typing_entry_survives_disconnect :
    typingSetOf c2typing.gw "c1" = ["u1"] ∧
    mapGet c2disc.gw.socketToUser "s1" = none ∧
    typingSetOf c2disc.gw "c1" = ["u1"] := by decide

/-- C5: `markAsRead` is idempotent per conversation and user: a second
call on the store produced by the first leaves the store (and so the set
of persisted read receipts) unchanged, reports no message ids, and does
not fail. -/
theorem markAsRead_idempotent (cid uid : String) (db : Store) :
    (MessagesService.markAsRead cid uid
        (MessagesService.markAsRead cid uid db).2).2 =
      (MessagesService.markAsRead cid uid db).2 ∧
    (MessagesService.markAsRead cid uid
        (MessagesService.markAsRead cid uid db).2).1.messageIds = [] := by
  rw [markAsRead_of_no_unread cid uid _ (markAsRead_clears cid uid db)]
  exact ⟨rfl, rfl⟩

/-! Lemmas unfolding `handleMarkAsRead` on the authenticated path, and the
receipt-count lemma. -/

theorem handleMarkAsRead_ok (g : GatewayState) (db : Store)
    (clientId uid cid : String)
    (hauth : mapGet g.socketToUser clientId = some uid)
    (hcid : cid ≠ "") :
    EventsGateway.handleMarkAsRead g db clientId (some cid) =
      { gw := g, db := (MessagesService.markAsRead cid uid db).2,
        emits := [clientToRoom g clientId cid
          (.messagesRead cid uid (MessagesService.markAsRead cid uid db).1.messageIds
            (MessagesService.markAsRead cid uid db).2.now)]
        err := none } := by
  simp [EventsGateway.handleMarkAsRead, jsTruthy, hcid, hauth]

theorem markAsRead_length (cid uid : String) (db : Store)
    (hnodup : (db.messages.map (fun m => m.id)).Nodup) :
    (MessagesService.markAsRead cid uid db).2.readReceipts.length =
      db.readReceipts.length + (unreadMessages db cid uid).length := by
  by_cases hp : 0 < (unreadMessages db cid uid).length
  · simp only [MessagesService.markAsRead]
    rw [if_pos hp]
    have hrows : (((unreadMessages db cid uid).map
        (fun m => (m.id, uid))).map Prod.fst).Nodup := by
      rw [List.map_map]
      have hcomp : Prod.fst ∘ (fun m : MessageRec => (m.id, uid)) =
          fun m : MessageRec => m.id := rfl
      rw [hcomp]
      exact hnodup.sublist ((List.filter_sublist db.messages).map _)
    have hall : ∀ r ∈ (unreadMessages db cid uid).map (fun m => (m.id, uid)),
        hasReceipt db r.1 r.2 = false := by
      intro r hr
      obtain ⟨m, hm, rfl⟩ := List.mem_map.mp hr
      have hu : isUnread db cid uid m = true := (List.mem_filter.mp hm).2
      unfold isUnread at hu
      simp only [Bool.and_eq_true] at hu
      obtain ⟨-, hc⟩ := hu
      cases hh : hasReceipt db m.id uid
      · rfl
      · rw [hh] at hc; cases hc
    rw [createManyReceipts_length _ db hrows hall, List.length_map]
  · have h0 : unreadMessages db cid uid = [] :=
      List.length_eq_zero.mp (Nat.eq_zero_of_not_pos hp)
    rw [markAsRead_of_no_unread cid uid db h0, h0]
    rfl

/-- C10: when the caller has no unread messages in the conversation, a
`markAsRead` action still succeeds, leaves the store unchanged, and still
broadcasts `messagesRead` with an empty id list to the room excluding the
caller — the broadcast is not suppressed. -/
theorem markAsRead_no_unread_still_broadcasts (g : GatewayState) (db : Store)
    (clientId uid cid : String)
    (hauth : mapGet g.socketToUser clientId = some uid)
    (hcid : cid ≠ "")
    (hempty : unreadMessages db cid uid = []) :
    EventsGateway.handleMarkAsRead g db clientId (some cid) =
      { gw := g, db := db,
        emits := [{ targets := (roomMembers g cid).filter (fun s => s != clientId),
                    event := .messagesRead cid uid [] db.now }]
        err := none } := by
  rw [handleMarkAsRead_ok g db clientId uid cid hauth hcid,
    markAsRead_of_no_unread cid uid db hempty]
  rfl

/-- C10 witness gateway state: `s1` is `u1`; room `c1` holds `s1`, `s2`. -/
def c10gw : GatewayState :=
  { emptyGateway with socketToUser := [("s1", "u1")],
                      rooms := [("c1", ["s1", "s2"])] }

/-- C10 witness: concrete instance with no unread messages. -/
theorem markAsRead_no_unread_still_broadcasts_witness :
    EventsGateway.handleMarkAsRead c10gw db0 "s1" (some "c1") =
      { gw := c10gw, db := db0,
        emits := [{ targets := (roomMembers c10gw "c1").filter (fun s => s != "s1"),
                    event := .messagesRead "c1" "u1" [] db0.now }]
        err := none } :=
  markAsRead_no_unread_still_broadcasts c10gw db0 "s1" "u1" "c1"
    (by decide) (by decide) (by decide)

/-- C7: a `markAsRead` action by an authenticated caller creates exactly
one receipt per unread message of the conversation (those authored by
someone else without a receipt by the caller), broadcasts `messagesRead`
carrying exactly those message ids to the room, the caller's own
connection is excluded from the delivery targets, and every other
subscribed connection is included. -/
theorem markAsRead_exact_receipts_and_fanout (g : GatewayState) (db : Store)
    (clientId uid cid : String)
    (hauth : mapGet g.socketToUser clientId = some uid)
    (hcid : cid ≠ "")
    (hnodup : (db.messages.map (fun m => m.id)).Nodup) :
    (EventsGateway.handleMarkAsRead g db clientId (some cid)).err = none ∧
    (EventsGateway.handleMarkAsRead g db clientId (some cid)).db.readReceipts.length =
      db.readReceipts.length + (unreadMessages db cid uid).length ∧
    (EventsGateway.handleMarkAsRead g db clientId (some cid)).emits =
      [{ targets := (roomMembers g cid).filter (fun s => s != clientId),
         event := .messagesRead cid uid
           ((unreadMessages db cid uid).map (fun m => m.id)) db.now }] ∧
    clientId ∉ (roomMembers g cid).filter (fun s => s != clientId) ∧
    ∀ s ∈ roomMembers g cid, s ≠ clientId →
      s ∈ (roomMembers g cid).filter (fun s => s != clientId) := by
  rw [handleMarkAsRead_ok g db clientId uid cid hauth hcid]
  refine ⟨rfl, ?_, ?_, ?_, ?_⟩
  · exact markAsRead_length cid uid db hnodup
  · rw [markAsRead_now cid uid db]
    rfl
  · simp [List.mem_filter]
  · intro s hs hne
    exact List.mem_filter.mpr ⟨hs, bne_iff_ne.mpr hne⟩

/-- C7 witness database: three messages by `u1` in `c1`, none read yet. -/
def db7 : Store :=
  { db0 with messages :=
      [{ id := "m1", content := "a", authorId := "u1", conversationId := "c1",
         createdAt := 1, updatedAt := 1 },
       { id := "m2", content := "b", authorId := "u1", conversationId := "c1",
         createdAt := 2, updatedAt := 2 },
       { id := "m3", content := "c", authorId := "u1", conversationId := "c1",
         createdAt := 3, updatedAt := 3 }] }

/-- C7 witness gateway state: `s2` is `u2`; room `c1` holds `s1`, `s2`. -/
def c7gw : GatewayState :=
  { emptyGateway with socketToUser := [("s2", "u2")],
                      rooms := [("c1", ["s1", "s2"])] }

/-- C7 witness: `u2` marks `c1` read after three unread messages from
`u1`. -/
theorem markAsRead_exact_receipts_and_fanout_witness :
    (EventsGateway.handleMarkAsRead c7gw db7 "s2" (some "c1")).err = none ∧
    (EventsGateway.handleMarkAsRead c7gw db7 "s2" (some "c1")).db.readReceipts.length =
      db7.readReceipts.length + (unreadMessages db7 "c1" "u2").length ∧
    (EventsGateway.handleMarkAsRead c7gw db7 "s2" (some "c1")).emits =
      [{ targets := (roomMembers c7gw "c1").filter (fun s => s != "s2"),
         event := .messagesRead "c1" "u2"
           ((unreadMessages db7 "c1" "u2").map (fun m => m.id)) db7.now }] ∧
    "s2" ∉ (roomMembers c7gw "c1").filter (fun s => s != "s2") ∧
    ∀ s ∈ roomMembers c7gw "c1", s ≠ "s2" →
      s ∈ (roomMembers c7gw "c1").filter (fun s => s != "s2") :=
  markAsRead_exact_receipts_and_fanout c7gw db7 "s2" "u2" "c1"
    (by decide) (by decide) (by decide)

/-- C9: the conversation `update` operation, for any payload, performs no
write: it returns the pair of the existing `findOne` response and the
unchanged store, and `findOne` succeeds with the stored record. -/
theorem conversationUpdate_noop (cid : String)
    (dto : ConversationsService.UpdateConversationDto) (uid : String)
    (db : Store) (c : ConversationRec)
    (h : convWhereIdAndMember db cid uid = some c) :
    ConversationsService.update cid dto uid db =
      (ConversationsService.findOne cid uid db, db) ∧
    ConversationsService.findOne cid uid db = .ok (toConversationResp db c) := by
  constructor
  · simp only [ConversationsService.update, h]
  · simp only [ConversationsService.findOne, h]

/-- C9 witness: updating `c1` as `u1` with a nonempty payload is a no-op
returning the stored conversation. -/
theorem conversationUpdate_noop_witness :
    ConversationsService.update "c1" { name := some "Renamed" } "u1" db0 =
      (ConversationsService.findOne "c1" "u1" db0, db0) :=
  (conversationUpdate_noop "c1" { name := some "Renamed" } "u1" db0
    { id := "c1", createdAt := 0, updatedAt := 0, lastMessageId := none,
      lastMessageAt := none } (by decide)).1

theorem find_append_singleton_mapped (l : List ConversationRec)
    (a : ConversationRec) (p : ConversationRec → Bool)
    (hl : ∀ x ∈ l, p x = false) (ha : p a = true) :
    ((l ++ [a]).find? p).map (fun c => c.id) = some a.id := by
  have hnone : l.find? p = none :=
    List.find?_eq_none.mpr (fun x hx => by rw [hl x hx]; exact Bool.false_ne_true)
  rw [list_find_append_left_none p l [a] hnone]
  simp [List.find?_cons, ha]

theorem findBetween_comm (u1 u2 : String) (db : Store) :
    ConversationsService.findConversationBetweenUsers [u1, u2] db =
      ConversationsService.findConversationBetweenUsers [u2, u1] db := by
  unfold ConversationsService.findConversationBetweenUsers
  congr 1
  apply list_find_ext
  intro c
  have h1 : (participantsOf db c.id).all (fun p => [u1, u2].contains p.userId) =
      (participantsOf db c.id).all (fun p => [u2, u1].contains p.userId) :=
    list_all_ext _ _ _ (fun p => contains_pair_comm p.userId u1 u2)
  have h2 : (participantsOf db c.id).any (fun p => [u1, u2].contains p.userId) =
      (participantsOf db c.id).any (fun p => [u2, u1].contains p.userId) :=
    list_any_ext _ _ _ (fun p => contains_pair_comm p.userId u1 u2)
  rw [h1, h2]

theorem foc_creates_found (u1 u2 : String) (db : Store)
    (h1 : ∀ c ∈ db.conversations, c.id ≠ freshId db)
    (h2 : ∀ p ∈ db.participants, p.conversationId ≠ freshId db) :
    ConversationsService.findConversationBetweenUsers [u1, u2]
      (ConversationsService.findOrCreateConversationBetweenUsers u1 u2 db).2 =
      some (ConversationsService.findOrCreateConversationBetweenUsers u1 u2 db).1 := by
  cases hf : ConversationsService.findConversationBetweenUsers [u1, u2] db with
  | some cid =>
      simp only [ConversationsService.findOrCreateConversationBetweenUsers, hf]
  | none =>
      simp only [ConversationsService.findOrCreateConversationBetweenUsers, hf]
      unfold ConversationsService.findConversationBetweenUsers
      have hparts : ∀ x : String, x ≠ freshId db →
          participantsOf
            { db with
                conversations := db.conversations ++
                  [{ id := freshId db, createdAt := db.now, updatedAt := db.now,
                     lastMessageId := none, lastMessageAt := none }]
                participants := db.participants ++
                  [{ id := freshId db ++ "p1", userId := u1,
                     conversationId := freshId db, createdAt := db.now },
                   { id := freshId db ++ "p2", userId := u2,
                     conversationId := freshId db, createdAt := db.now }]
                nextId := db.nextId + 1 } x = participantsOf db x := by
        intro x hx
        simp only [participantsOf, List.filter_append]
        have hbx : (freshId db == x) = false :=
          beq_eq_false_iff_ne.mpr (fun h => hx h.symm)
        have hnil : List.filter (fun p : ParticipantRec => p.conversationId == x)
            [{ id := freshId db ++ "p1", userId := u1,
               conversationId := freshId db, createdAt := db.now },
             { id := freshId db ++ "p2", userId := u2,
               conversationId := freshId db, createdAt := db.now }] = [] := by
          simp [List.filter, hbx]
        rw [hnil, List.append_nil]
      apply find_append_singleton_mapped
      · intro c hc
        rw [hparts c.id (h1 c hc)]
        have hfind : db.conversations.find? (fun c =>
            (participantsOf db c.id).all (fun p => [u1, u2].contains p.userId) &&
            (participantsOf db c.id).any (fun p => [u1, u2].contains p.userId)) =
            none := by
          have hm := hf
          unfold ConversationsService.findConversationBetweenUsers at hm
          exact Option.map_eq_none'.mp hm
        have hold := List.find?_eq_none.mp hfind c hc
        exact Bool.not_eq_true _ ▸ Bool.of_not_eq_true hold
      · have hpnew : participantsOf
            { db with
                conversations := db.conversations ++
                  [{ id := freshId db, createdAt := db.now, updatedAt := db.now,
                     lastMessageId := none, lastMessageAt := none }]
                participants := db.participants ++
                  [{ id := freshId db ++ "p1", userId := u1,
                     conversationId := freshId db, createdAt := db.now },
                   { id := freshId db ++ "p2", userId := u2,
                     conversationId := freshId db, createdAt := db.now }]
                nextId := db.nextId + 1 } (freshId db) =
            [{ id := freshId db ++ "p1", userId := u1,
               conversationId := freshId db, createdAt := db.now },
             { id := freshId db ++ "p2", userId := u2,
               conversationId := freshId db, createdAt := db.now }] := by
          simp only [participantsOf, List.filter_append]
          have hpre : List.filter (fun p : ParticipantRec => p.conversationId == freshId db)
              db.participants = [] := by
            apply List.filter_eq_nil_iff.mpr
            intro p hp
            simp [h2 p hp]
          rw [hpre]
          simp [List.filter]
        simp [hpnew, List.contains]

/-- C6: `startConversation` deduplication: with fresh-id generation (no
stored row already uses the id the next creation would generate), a second
find-or-create between the same unordered pair of users returns the id the
first call returned and performs no further creation — the existence check
precedes creation. -/
theorem startConversation_dedup (u1 u2 : String) (db : Store)
    (h1 : ∀ c ∈ db.conversations, c.id ≠ freshId db)
    (h2 : ∀ p ∈ db.participants, p.conversationId ≠ freshId db) :
    ConversationsService.findOrCreateConversationBetweenUsers u1 u2
        (ConversationsService.findOrCreateConversationBetweenUsers u1 u2 db).2 =
      ((ConversationsService.findOrCreateConversationBetweenUsers u1 u2 db).1,
       (ConversationsService.findOrCreateConversationBetweenUsers u1 u2 db).2) ∧
    ConversationsService.findOrCreateConversationBetweenUsers u2 u1
        (ConversationsService.findOrCreateConversationBetweenUsers u1 u2 db).2 =
      ((ConversationsService.findOrCreateConversationBetweenUsers u1 u2 db).1,
       (ConversationsService.findOrCreateConversationBetweenUsers u1 u2 db).2) := by
  have key := foc_creates_found u1 u2 db h1 h2
  set pr := ConversationsService.findOrCreateConversationBetweenUsers u1 u2 db
    with hpr
  constructor
  · unfold ConversationsService.findOrCreateConversationBetweenUsers
    rw [key]
  · have key2 : ConversationsService.findConversationBetweenUsers [u2, u1]
        pr.2 = some pr.1 := by
      rw [← findBetween_comm u1 u2 pr.2]
      exact key
    unfold ConversationsService.findOrCreateConversationBetweenUsers
    rw [key2]

/-- C6 witness: two find-or-create calls between `u1` and `u3` on `db0`
(where no such conversation exists yet) agree, in both argument orders. -/
theorem startConversation_dedup_witness :
    ConversationsService.findOrCreateConversationBetweenUsers "u1" "u3"
        (ConversationsService.findOrCreateConversationBetweenUsers "u1" "u3" db0).2 =
      ((ConversationsService.findOrCreateConversationBetweenUsers "u1" "u3" db0).1,
       (ConversationsService.findOrCreateConversationBetweenUsers "u1" "u3" db0).2) ∧
    ConversationsService.findOrCreateConversationBetweenUsers "u3" "u1"
        (ConversationsService.findOrCreateConversationBetweenUsers "u1" "u3" db0).2 =
      ((ConversationsService.findOrCreateConversationBetweenUsers "u1" "u3" db0).1,
       (ConversationsService.findOrCreateConversationBetweenUsers "u1" "u3" db0).2) :=
  startConversation_dedup "u1" "u3" db0 (by decide) (by decide)

/-! Claims C3 and C4. -/

theorem join_msg_ne_empty (cid : String) :
    ("Conversation with ID " ++ cid ++ " not found") ≠ "" := by
  intro h
  have hl := congrArg String.length h
  rw [String.length_append, String.length_append] at hl
  have e1 : ("Conversation with ID ").length = 21 := rfl
  have e2 : (" not found").length = 10 := rfl
  have e3 : ("" : String).length = 0 := rfl
  omega

/-- C4 database: conversation `c2` has `u2` as its only participant. -/
def db4 : Store :=
  { db0 with
      conversations := db0.conversations ++
        [{ id := "c2", createdAt := 0, updatedAt := 0, lastMessageId := none,
           lastMessageAt := none }]
      participants := db0.participants ++
        [{ id := "p3", userId := "u2", conversationId := "c2", createdAt := 0 }] }

/-- C4 fixture: `u1` connects on `s1`, then asks to join `c2`. -/
def c4conn : HandlerResult :=
  EventsGateway.handleConnection emptyGateway db4 "s1" (some "u1")

def c4join : HandlerResult :=
  EventsGateway.handleJoinConversation c4conn.gw c4conn.db "s1" (some "c2")

/-- C4 counterexample: the non-participant join of `c2` by `u1` is indeed
rejected and the socket is not subscribed, but the rejection is the
service's `NotFoundException`, surfaced to the caller as an error event of
type `JOIN_CONVERSATION_ERROR` — not an `AuthorizationError`. -/
theorem joinConversation_rejection_is_notFound :
    c4join.err = some (.notFound "Conversation with ID c2 not found") ∧
    c4join.emits = [emitTo "s1" (.errorEvent "JOIN_CONVERSATION_ERROR"
      "Conversation with ID c2 not found" (some "c2"))] ∧
    roomMembers c4join.gw "c2" = [] ∧
    c4join.gw = c4conn.gw := by decide

/-- C4 (amended): a join of conversation `C` by an authenticated connection
of a user who is not a participant of `C` is rejected — the service throws
`NotFoundException` ("Conversation with ID C not found"), the caller
receives a single `error` event of type `JOIN_CONVERSATION_ERROR`, and
neither the gateway state (so no room subscription) nor the store
changes. -/
theorem joinConversation_nonparticipant_rejected (g : GatewayState)
    (db : Store) (clientId uid cid : String)
    (hauth : mapGet g.socketToUser clientId = some uid)
    (hcid : cid ≠ "")
    (hnot : convWhereIdAndMember db cid uid = none) :
    EventsGateway.handleJoinConversation g db clientId (some cid) =
      { gw := g, db := db,
        emits := [emitTo clientId (.errorEvent "JOIN_CONVERSATION_ERROR"
          ("Conversation with ID " ++ cid ++ " not found") (some cid))]
        err := some (.notFound ("Conversation with ID " ++ cid ++ " not found")) } := by
  have hmsg := join_msg_ne_empty cid
  simp [EventsGateway.handleJoinConversation, jsTruthy, hcid, hauth,
    ConversationsService.findOne, hnot, handlerThrow, GErr.typeField,
    GErr.msgText, jsOrS, hmsg, emitTo]

/-- C4 witness gateway state. -/
def c4gwW : GatewayState :=
  { emptyGateway with socketToUser := [("s1", "u1")] }

/-- C4 witness: concrete non-participant join (`c9` has no participant
rows in `db0`). -/
theorem joinConversation_nonparticipant_rejected_witness :
    EventsGateway.handleJoinConversation c4gwW db0 "s1" (some "c9") =
      { gw := c4gwW, db := db0,
        emits := [emitTo "s1" (.errorEvent "JOIN_CONVERSATION_ERROR"
          ("Conversation with ID " ++ "c9" ++ " not found") (some "c9"))]
        err := some (.notFound ("Conversation with ID " ++ "c9" ++ " not found")) } :=
  joinConversation_nonparticipant_rejected c4gwW db0 "s1" "u1" "c9"
    (by decide) (by decide) (by decide)

/-- C3 fixture: `u1` connects on `s1` against `db0`. -/
def c3conn : HandlerResult :=
  EventsGateway.handleConnection emptyGateway db0 "s1" (some "u1")

/-- C3 fixture: send with BOTH `conversationId` (`c1`) and `recipientId`
(`u3`) present. -/
def c3both : HandlerResult :=
  EventsGateway.handleSendMessage c3conn.gw c3conn.db "s1" (some "hi")
    (some "c1") (some "u3") true true

/-- C3 counterexample: a send with both `conversationId` and `recipientId`
present is NOT rejected: it succeeds and persists the message into the
conversation named by `conversationId`, silently ignoring `recipientId`. -/
theorem sendMessage_both_present_not_rejected :
    c3both.err = none ∧
    c3both.db.messages.map (fun m => m.conversationId) = ["c1"] := by decide

/-- Thrown error is a `WsException` with type `VALIDATION_ERROR`. -/
def errIsValidation : Option GErr → Bool
  | some (.ws t _) => t == "VALIDATION_ERROR"
  | _ => false

/-- C3 (amended): when both `conversationId` and `recipientId` are absent
(or empty) the send fails with a `VALIDATION_ERROR` and neither the store
nor the gateway state changes; but when a nonempty `conversationId` is
present the action is NOT rejected for also carrying a `recipientId`:
it behaves exactly as if `recipientId` were absent (`conversationId`
silently takes precedence). -/
theorem sendMessage_exactly_one_amended (g : GatewayState) (db : Store)
    (clientId : String) (content rid : Option String) (ins upd : Bool) :
    (∀ cid : Option String, jsTruthy cid = false → jsTruthy rid = false →
      errIsValidation
        (EventsGateway.handleSendMessage g db clientId content cid rid ins upd).err = true ∧
      (EventsGateway.handleSendMessage g db clientId content cid rid ins upd).db = db ∧
      (EventsGateway.handleSendMessage g db clientId content cid rid ins upd).gw = g) ∧
    (∀ c : String, c ≠ "" →
      EventsGateway.handleSendMessage g db clientId content (some c) rid ins upd =
      EventsGateway.handleSendMessage g db clientId content (some c) none ins upd) := by
  constructor
  · intro cid hc hr
    by_cases hct : jsTruthy content = true
    · simp [EventsGateway.handleSendMessage, hct, hc, hr, handlerThrow,
        errIsValidation]
    · have hcf : jsTruthy content = false := by
        cases h : jsTruthy content
        · rfl
        · exact absurd h hct
      simp [EventsGateway.handleSendMessage, hcf, hc, hr, handlerThrow,
        errIsValidation]
  · intro c hc
    have ht : jsTruthy (some c) = true := by simp [jsTruthy, hc]
    simp [EventsGateway.handleSendMessage, MessagesService.create, jsOr, ht]

/-- C3 witness: both-absent send fails as a validation error with nothing
persisted; both-present send equals the send with `recipientId` erased. -/
theorem sendMessage_exactly_one_amended_witness :
    (errIsValidation (EventsGateway.handleSendMessage c3conn.gw c3conn.db "s1"
        (some "hi") none none true true).err = true ∧
      (EventsGateway.handleSendMessage c3conn.gw c3conn.db "s1"
        (some "hi") none none true true).db = c3conn.db ∧
      (EventsGateway.handleSendMessage c3conn.gw c3conn.db "s1"
        (some "hi") none none true true).gw = c3conn.gw) ∧
    (EventsGateway.handleSendMessage c3conn.gw c3conn.db "s1" (some "hi")
        (some "c1") (some "u3") true true =
      EventsGateway.handleSendMessage c3conn.gw c3conn.db "s1" (some "hi")
        (some "c1") none true true) :=
  ⟨(sendMessage_exactly_one_amended c3conn.gw c3conn.db "s1" (some "hi")
      none true true).1 none (by decide) (by decide),
   (sendMessage_exactly_one_amended c3conn.gw c3conn.db "s1" (some "hi")
      (some "u3") true true).2 "c1" (by decide)⟩

/-! Claim C8. -/

/-- The event is an `error` event. -/
def isErrorEv : ServerEvent → Bool
  | .errorEvent _ _ _ => true
  | _ => false

/-- A delivery is "committed" against a store when any `newMessage` payload
it carries names a message row present in that store (non-message events
are vacuously committed). -/
def emitCommitted (db : Store) (em : Emit) : Bool :=
  match em.event with
  | .newMessage m =>
      db.messages.any (fun x => x.id == m.id && x.conversationId == m.conversationId)
  | _ => true

/-- When `MessagesService.create` returns a message, that message's row is
present in the store the call returns. -/
theorem create_ok_committed (dto : CreateMessageDto) (authorId : String)
    (ins upd : Bool) (db : Store) (m : MessageResp)
    (h : (MessagesService.create dto authorId ins upd db).1 = .ok m) :
    (MessagesService.create dto authorId ins upd db).2.messages.any
      (fun x => x.id == m.id && x.conversationId == m.conversationId) = true := by
  cases hc : jsTruthy dto.conversationId with
  | true =>
      cases hfind : ConversationsService.findOne (dto.conversationId.getD "")
          authorId db with
      | error e => simp [MessagesService.create, hc, hfind] at h
      | ok cresp =>
          cases hins : ins with
          | false => simp [MessagesService.create, hc, hfind, hins] at h
          | true =>
              cases hupd : upd with
              | false => simp [MessagesService.create, hc, hfind, hins, hupd] at h
              | true =>
                  simp only [MessagesService.create, hc, hfind, hins, hupd,
                    if_true, if_false, Bool.true_eq_false] at h ⊢
                  simp only [Except.ok.injEq] at h
                  subst h
                  simp [toMessageResp, List.any_append]
  | false =>
      cases hr : jsTruthy dto.recipientId with
      | false => simp [MessagesService.create, hc, hr] at h
      | true =>
          cases hins : ins with
          | false => simp [MessagesService.create, hc, hr, hins] at h
          | true =>
              cases hupd : upd with
              | false => simp [MessagesService.create, hc, hr, hins, hupd] at h
              | true =>
                  simp only [MessagesService.create, hc, hr, hins, hupd,
                    if_true, if_false, Bool.false_eq_true] at h ⊢
                  simp only [Except.ok.injEq] at h
                  subst h
                  simp [toMessageResp, List.any_append]

/-- Every `handleSendMessage` run is either a caught throw (one `error`
event to the caller, no other delivery) or a successful create followed by
the room fan-out and the sender acknowledgement. -/
theorem handleSendMessage_shape (g : GatewayState) (db : Store)
    (clientId : String) (content cid rid : Option String) (ins upd : Bool) :
    (∃ e db2, EventsGateway.handleSendMessage g db clientId content cid rid ins upd =
      handlerThrow g db2 clientId "SEND_MESSAGE_ERROR" "Failed to send message"
        (jsOr cid rid) e) ∨
    (∃ uid m,
      mapGet g.socketToUser clientId = some uid ∧
      (MessagesService.create
        { content := jsTrim (content.getD ""), conversationId := cid,
          recipientId := rid } uid ins upd db).1 = .ok m ∧
      EventsGateway.handleSendMessage g db clientId content cid rid ins upd =
        { gw := g,
          db := (MessagesService.create
            { content := jsTrim (content.getD ""), conversationId := cid,
              recipientId := rid } uid ins upd db).2,
          emits := [serverToRoom g m.conversationId (.newMessage m),
            emitTo clientId (.messageSent "Message sent successfully" m.id)]
          err := none }) := by
  cases hct : jsTruthy content with
  | false =>
      left
      exact ⟨.ws "VALIDATION_ERROR" "content is required", db,
        by simp [EventsGateway.handleSendMessage, hct]⟩
  | true =>
      cases hc2 : (!(jsTruthy cid) && !(jsTruthy rid)) with
      | true =>
          left
          exact ⟨.ws "VALIDATION_ERROR"
            "Either conversationId or recipientId is required", db,
            by simp [EventsGateway.handleSendMessage, hct, hc2]⟩
      | false =>
          cases hc3 : ((jsTrim (content.getD "")).length == 0) with
          | true =>
              left
              exact ⟨.ws "VALIDATION_ERROR" "Message content cannot be empty", db,
                by simp [EventsGateway.handleSendMessage, hct, hc2, hc3]⟩
          | false =>
              cases hm : mapGet g.socketToUser clientId with
              | none =>
                  left
                  exact ⟨.ws "AUTHENTICATION_ERROR" "User not authenticated", db,
                    by simp [EventsGateway.handleSendMessage, hct, hc2, hc3, hm]⟩
              | some uid =>
                  cases hcr : (MessagesService.create
                      { content := jsTrim (content.getD ""), conversationId := cid,
                        recipientId := rid } uid ins upd db).1 with
                  | error e =>
                      left
                      refine ⟨e, (MessagesService.create
                        { content := jsTrim (content.getD ""), conversationId := cid,
                          recipientId := rid } uid ins upd db).2, ?_⟩
                      simp [EventsGateway.handleSendMessage, hct, hc2, hc3, hm, hcr]
                  | ok m =>
                      right
                      refine ⟨uid, m, rfl, hcr, ?_⟩
                      simp [EventsGateway.handleSendMessage, hct, hc2, hc3, hm, hcr]

/-- C8: if the message's store mutation fails, the handler's only
deliveries are error events to the caller alone (no `newMessage` reaches
the room); and any `newMessage` fan-out that does occur carries a message
already committed in the handler's resulting store — fan-out happens only
after the store mutation. -/
theorem sendMessage_fanout_after_commit (g : GatewayState) (db : Store)
    (clientId : String) (content cid rid : Option String) (ins upd : Bool) :
    ((EventsGateway.handleSendMessage g db clientId content cid rid ins upd).err.isSome = true →
      (EventsGateway.handleSendMessage g db clientId content cid rid ins upd).emits.all
        (fun em => em.targets == [clientId] && isErrorEv em.event) = true) ∧
    (EventsGateway.handleSendMessage g db clientId content cid rid ins upd).emits.all
      (emitCommitted
        (EventsGateway.handleSendMessage g db clientId content cid rid ins upd).db) = true := by
  rcases handleSendMessage_shape g db clientId content cid rid ins upd with
    ⟨e, db2, hthrow⟩ | ⟨uid, m, hm, hcr, hsucc⟩
  · rw [hthrow]
    constructor
    · intro _
      simp [handlerThrow, emitTo, isErrorEv]
    · simp [handlerThrow, emitTo, emitCommitted]
  · rw [hsucc]
    constructor
    · intro hcontra
      simp at hcontra
    · simp only [List.all_cons, List.all_nil, Bool.and_true]
      have hcommit := create_ok_committed _ uid ins upd db m hcr
      simp [emitCommitted, serverToRoom, emitTo, hcommit]

/-- C8 witness gateway state. -/
def c8gw : GatewayState :=
  { emptyGateway with socketToUser := [("s1", "u1")] }

/-- C8 witness: a send whose message insert is rejected (`insertOk =
false`) has `err` set and delivers only caller-directed error events. -/
theorem sendMessage_fanout_after_commit_witness :
    (EventsGateway.handleSendMessage c8gw db0 "s1" (some "hi") (some "c1")
      none false true).err.isSome = true ∧
    (EventsGateway.handleSendMessage c8gw db0 "s1" (some "hi") (some "c1")
      none false true).emits.all
        (fun em => em.targets == ["s1"] && isErrorEv em.event) = true :=
  ⟨by decide,
   (sendMessage_fanout_after_commit c8gw db0 "s1" (some "hi") (some "c1")
     none false true).1 (by decide)⟩
